import Mathlib

/-!
Verification development for the scroll/animation glue code of this repository.

The embedding follows the source files:
  * src/unnamed/part_000 - the fullest variant: UA-based isMobile, the
    ScrollAnimationManager with the skip branch, text-reveal-story,
    image-parallax, horizontal-scroll, and the footer auto-navigation.
  * src/main.js (second document, lines 765-1313) - the DesktopScrollManager
    variant with detectTouchDevice, the 991px breakpoint and the
    resize-driven Lenis lifecycle.

External library effects (gsap, ScrollTrigger, SplitText) are modelled as an
emitted command list; DOM queries are modelled as snapshot fields on the
element/device records.
-/

namespace Stefan

/-! ### JavaScript string/number primitives used by the source -/

/-- Boolean list-prefix test (structural helper for the substring tests the
mobile user-agent regexes compile to). -/
def listPrefixB : List Char → List Char → Bool
  | [], _ => true
  | _ :: _, [] => false
  | a :: as, b :: bs => a == b && listPrefixB as bs

/-- Boolean list-infix test. -/
def listInfixB (n : List Char) : List Char → Bool
  | [] => listPrefixB n []
  | c :: cs => listPrefixB n (c :: cs) || listInfixB n cs

/-- Case-insensitive substring test: the meaning of the alternation regexes
with the i flag used by the source (each alternative is a literal, so the
regex matches iff some alternative is a substring, case-insensitively). -/
def containsCI (haystack needle : String) : Bool :=
  listInfixB (needle.data.map Char.toLower) (haystack.data.map Char.toLower)

/-- Value of a digit string read in base 10. -/
def digitsToNat (cs : List Char) : Nat :=
  cs.foldl (fun acc c => 10 * acc + (c.toNat - 48)) 0

/-- Shallow embedding of JavaScript parseFloat: skip leading whitespace,
optional sign, decimal digits with optional fraction and optional exponent,
ignoring trailing garbage.  none stands for NaN (no numeric prefix at all).
Non-finite parses (the literal Infinity) are mapped to the NaN case; no
directive in this repository can hit that difference in a way that changes
any claim (an Infinity value is nonzero and truthy either way). -/
def jsParseFloat (s : String) : Option ℚ :=
  let cs := s.data.dropWhile (fun c => c.isWhitespace)
  let signAndRest : ℚ × List Char :=
    match cs with
    | '-' :: rest => (-1, rest)
    | '+' :: rest => (1, rest)
    | _ => (1, cs)
  let sign := signAndRest.1
  let cs1 := signAndRest.2
  let intPart := cs1.takeWhile (fun c => c.isDigit)
  let cs2 := cs1.drop intPart.length
  let fracPart : List Char :=
    match cs2 with
    | '.' :: rest => rest.takeWhile (fun c => c.isDigit)
    | _ => []
  let cs3 : List Char :=
    match cs2 with
    | '.' :: rest => rest.drop ((rest.takeWhile (fun c => c.isDigit)).length)
    | _ => cs2
  if intPart.isEmpty && fracPart.isEmpty then none
  else
    let mantissa : ℚ :=
      (digitsToNat intPart : ℚ) + (digitsToNat fracPart : ℚ) / (10 : ℚ) ^ fracPart.length
    let expVal : ℤ :=
      match cs3 with
      | c :: rest =>
        if c = 'e' ∨ c = 'E' then
          match rest with
          | '-' :: ds => -((digitsToNat (ds.takeWhile (fun x => x.isDigit)) : ℤ))
          | '+' :: ds => (digitsToNat (ds.takeWhile (fun x => x.isDigit)) : ℤ)
          | ds => (digitsToNat (ds.takeWhile (fun x => x.isDigit)) : ℤ)
        else 0
      | [] => 0
    some (sign * mantissa * (10 : ℚ) ^ expVal)

/-- JS pattern parseFloat(v) || d as used throughout parseAnimationData:
an absent attribute parses to NaN, and both NaN and 0 are falsy, so the
default applies exactly when the parse fails or yields zero. -/
def numOr (attr : Option String) (d : ℚ) : ℚ :=
  match attr with
  | none => d
  | some s =>
    match jsParseFloat s with
    | none => d
    | some x => if x = 0 then d else x

/-- JS pattern v || d for strings: the empty string is falsy. -/
def strOr (attr : Option String) (d : String) : String :=
  match attr with
  | none => d
  | some s => if s = "" then d else s

/-- JS pattern v || null for strings (part_000 line 293). -/
def strOrNone (attr : Option String) : Option String :=
  match attr with
  | none => none
  | some s => if s = "" then none else some s

/-! ### Device detection (src/unnamed/part_000 lines 13-26) -/

/-- Ambient navigator state read by window.isMobile. -/
structure Navigator where
  /-- navigator.userAgentData.mobile when the structured API is present. -/
  userAgentDataMobile : Option Bool
  /-- navigator.userAgent. -/
  userAgent : String
  deriving DecidableEq

/-- The alternatives of the mobile user-agent regex of part_000 line 20. -/
def mobileUAParts : List String :=
  ["Android", "webOS", "iPhone", "iPad", "iPod", "BlackBerry", "IEMobile",
   "Opera Mini"]

/-- window.isMobile (part_000 lines 13-26): prefer the structured
userAgentData.mobile flag, else test the user agent against the mobile
regex. -/
def isMobile (nav : Navigator) : Bool :=
  match nav.userAgentDataMobile with
  | some m => m
  | none => mobileUAParts.any (fun p => containsCI nav.userAgent p)

/-! ### The animation directive (src/unnamed/part_000 lines 290-310) -/

/-- The data-scroll-* attributes of an element; none is an absent attribute. -/
structure Dataset where
  scrollAnimation : Option String := none
  scrollTrigger : Option String := none
  scrollEnd : Option String := none
  scrollScrub : Option String := none
  scrollDuration : Option String := none
  scrollDelay : Option String := none
  scrollStagger : Option String := none
  scrollEase : Option String := none
  scrollToggle : Option String := none
  scrollSplit : Option String := none
  scrollOnce : Option String := none
  scrollItems : Option String := none
  scrollHeightMultiplier : Option String := none
  scrollParallaxAmount : Option String := none
  deriving DecidableEq

/-- The parsed per-element animation configuration. -/
structure AnimConfig where
  type : Option String
  trigger : String
  endPos : String
  scrub : Bool
  duration : ℚ
  delay : ℚ
  stagger : ℚ
  ease : String
  toggleActions : String
  splitType : String
  once : Bool
  items : String
  heightMultiplier : ℚ
  parallaxAmount : ℚ
  deriving DecidableEq

/-- parseAnimationData (part_000 lines 290-310). -/
def parseAnimationData (ds : Dataset) : AnimConfig :=
  { type := strOrNone ds.scrollAnimation
    trigger := strOr ds.scrollTrigger "top 80%"
    endPos := strOr ds.scrollEnd "bottom 20%"
    scrub := ds.scrollScrub == some "true"
    duration := numOr ds.scrollDuration 1
    delay := numOr ds.scrollDelay 0
    stagger := numOr ds.scrollStagger 0.1
    ease := strOr ds.scrollEase "power2.out"
    toggleActions := strOr ds.scrollToggle "play none none none"
    splitType := strOr ds.scrollSplit "words"
    once := ds.scrollOnce == some "true"
    items := strOr ds.scrollItems ".w-dyn-item"
    heightMultiplier := numOr ds.scrollHeightMultiplier 50
    parallaxAmount := numOr ds.scrollParallaxAmount 50 }

/-! ### Element snapshot and the engine command model -/

/-- DOM snapshot of a directive-bearing element, with the query results the
builders read.  The hs fields are the results of the horizontal-scroll
queries for the element with its own configured item selector. -/
structure Element where
  dataset : Dataset := {}
  /-- Number of word sub-elements SplitText produces for this element. -/
  splitWords : Nat := 0
  /-- Number of char sub-elements SplitText produces. -/
  splitChars : Nat := 0
  /-- Number of line sub-elements SplitText produces. -/
  splitLines : Nat := 0
  /-- element.children.length. -/
  childrenCount : Nat := 0
  /-- Whether element.closest of the story section class finds an ancestor. -/
  hasStorySection : Bool := false
  /-- Whether element.querySelector(config.items) finds a first item. -/
  hsFirstItemFound : Bool := false
  /-- listContainer.querySelectorAll(config.items).length. -/
  hsItemCount : Nat := 0
  /-- element.offsetWidth. -/
  offsetWidth : ℚ := 0
  /-- listContainer.scrollWidth. -/
  listScrollWidth : ℚ := 0
  deriving DecidableEq

/-- Animation target as referenced by emitted engine calls. -/
inductive Target where
  /-- The directive element itself. -/
  | element : Target
  /-- The closest story section ancestor (text-reveal-story trigger). -/
  | storySection : Target
  /-- The collection of split sub-units. -/
  | splitUnits : Target
  /-- The i-th split sub-unit. -/
  | splitUnit (i : Nat) : Target
  /-- The element.children collection. -/
  | children : Target
  /-- The horizontal-scroll list container. -/
  | listContainer : Target
  deriving DecidableEq

/-- A JS scrub value: ScrollTrigger accepts both booleans and numbers. -/
inductive ScrubVal where
  | b (v : Bool) : ScrubVal
  | n (v : ℚ) : ScrubVal
  deriving DecidableEq

/-- JS truthiness of a scrub value (false and 0 are falsy). -/
def ScrubVal.truthy : ScrubVal → Bool
  | .b v => v
  | .n q => decide (q ≠ 0)

/-- Properties passed to a gsap set/to call (only the ones this code uses). -/
structure TweenProps where
  x : Option ℚ := none
  y : Option ℚ := none
  opacity : Option ℚ := none
  scale : Option ℚ := none
  rotation : Option ℚ := none
  centerOrigin : Bool := false
  deriving DecidableEq

/-- A scrollTrigger configuration object as built by the dispatcher builders. -/
structure STConfig where
  trigger : Target
  startPos : String
  endPos : String
  scrub : ScrubVal
  toggleActions : String
  once : Bool
  deriving DecidableEq

/-- One timeline.to(target, props, position) entry. -/
structure TimelineEntry where
  target : Target
  props : TweenProps
  duration : ℚ
  ease : String
  position : ℚ
  deriving DecidableEq

/-- The fixed scrollTrigger config of the horizontal-scroll gsap.to
(part_000 lines 483-490). -/
structure HSTriggerCfg where
  startPos : String
  endPos : String
  invalidateOnRefresh : Bool
  scrub : ScrubVal
  deriving DecidableEq

/-- The literal trigger values of the horizontal-scroll animation. -/
def hsTriggerCfg : HSTriggerCfg :=
  { startPos := "top top", endPos := "bottom-=2.5rem bottom",
    invalidateOnRefresh := true, scrub := ScrubVal.b true }

/-- An effect on the animation/scroll engine emitted by a builder. -/
inductive Cmd where
  /-- gsap.set(target, props). -/
  | set (t : Target) (props : TweenProps) : Cmd
  /-- element.style.height assignment in svh units. -/
  | setHeightSvh (v : ℚ) : Cmd
  /-- gsap.timeline with a scrollTrigger and its ordered to-entries. -/
  | timeline (st : STConfig) (entries : List TimelineEntry) : Cmd
  /-- gsap.to(target, props with duration/delay/ease and a scrollTrigger). -/
  | to (t : Target) (props : TweenProps) (duration delay : ℚ) (ease : String)
      (st : STConfig) : Cmd
  /-- gsap.to on a collection with a stagger parameter (stagger-children). -/
  | toCollection (t : Target) (props : TweenProps) (duration stagger delay : ℚ)
      (ease : String) (st : STConfig) : Cmd
  /-- The image-parallax gsap.to (y translation, ease none). -/
  | parallaxTo (t : Target) (y : ℚ) (ease : String) (st : STConfig) : Cmd
  /-- The horizontal-scroll gsap.to of the list container. -/
  | hsTo (t : Target) (x : ℚ) (ease : String) (trig : HSTriggerCfg) : Cmd
  /-- ScrollTrigger.refresh(). -/
  | refresh : Cmd
  deriving DecidableEq

/-- A builder: reads ambient device state and the element snapshot, emits
engine commands; error is the caught-exception channel of the dispatcher. -/
def Builder : Type := Navigator → Element → AnimConfig → Except String (List Cmd)

/-! ### The animation builders (src/unnamed/part_000 lines 316-640) -/

/-- Number of SplitText targets selected by splitType (words, chars, else
lines), as in part_000 lines 327-332. -/
def targetsCount (e : Element) (splitType : String) : Nat :=
  if splitType = "words" then e.splitWords
  else if splitType = "chars" then e.splitChars
  else e.splitLines

/-- The expression config.scrub || 1 of the text-reveal builders: the
boolean true passes through, false falls back to the number 1. -/
def scrubOr1 (scrub : Bool) : ScrubVal :=
  if scrub then ScrubVal.b true else ScrubVal.n 1

/-- setupTextReveal (part_000 lines 319-358). -/
def setupTextReveal : Builder := fun _nav e cfg =>
  Except.ok
    [Cmd.set Target.splitUnits { opacity := some 0.3 },
     Cmd.timeline
       { trigger := Target.element, startPos := cfg.trigger, endPos := cfg.endPos,
         scrub := scrubOr1 cfg.scrub, toggleActions := cfg.toggleActions,
         once := cfg.once }
       ((List.range (targetsCount e cfg.splitType)).map fun i =>
         { target := Target.splitUnit i, props := { opacity := some 1 },
           duration := cfg.duration, ease := cfg.ease,
           position := (i : ℚ) * cfg.stagger })]

/-- setupTextRevealStory (part_000 lines 364-426).  The dynamic invalid
element guard of lines 366-369 is vacuous in the embedding (elements are
well typed).  Without a story section ancestor the builder falls back to
setupTextReveal; otherwise the trigger is the ancestor and the ease is the
hard-coded power4.inOut. -/
def setupTextRevealStory : Builder := fun nav e cfg =>
  if !e.hasStorySection then setupTextReveal nav e cfg
  else
    Except.ok
      [Cmd.set Target.splitUnits { opacity := some 0.3 },
       Cmd.timeline
         { trigger := Target.storySection, startPos := cfg.trigger,
           endPos := cfg.endPos, scrub := scrubOr1 cfg.scrub,
           toggleActions := cfg.toggleActions, once := cfg.once }
         ((List.range (targetsCount e cfg.splitType)).map fun i =>
           { target := Target.splitUnit i, props := { opacity := some 1 },
             duration := cfg.duration, ease := "power4.inOut",
             position := (i : ℚ) * cfg.stagger })]

/-- createScrollTriggerConfig (part_000 lines 431-440): the shared trigger
config passing the parsed scrub flag through unchanged. -/
def createScrollTriggerConfig (cfg : AnimConfig) : STConfig :=
  { trigger := Target.element, startPos := cfg.trigger, endPos := cfg.endPos,
    scrub := ScrubVal.b cfg.scrub, toggleActions := cfg.toggleActions,
    once := cfg.once }

/-- setupHorizontalScroll (part_000 lines 446-500): desktop-only; finds the
first item, uses its parent as the list, sets the element height to
item count times the height multiplier in svh, then tweens the list by
minus (list scroll width - element visible width) and refreshes. -/
def setupHorizontalScroll : Builder := fun nav e cfg =>
  if isMobile nav then Except.ok []
  else if !e.hsFirstItemFound then Except.ok []
  else if e.hsItemCount = 0 then Except.ok []
  else
    Except.ok
      [Cmd.setHeightSvh ((e.hsItemCount : ℚ) * cfg.heightMultiplier),
       Cmd.hsTo Target.listContainer (-(e.listScrollWidth - e.offsetWidth))
         "none" hsTriggerCfg,
       Cmd.refresh]

/-- setupFadeIn (part_000 lines 504-514). -/
def setupFadeIn : Builder := fun _nav _e cfg =>
  Except.ok
    [Cmd.set Target.element { opacity := some 0 },
     Cmd.to Target.element { opacity := some 1 } cfg.duration cfg.delay cfg.ease
       (createScrollTriggerConfig cfg)]

/-- setupSlideUp (part_000 lines 519-530). -/
def setupSlideUp : Builder := fun _nav _e cfg =>
  Except.ok
    [Cmd.set Target.element { y := some 30, opacity := some 0 },
     Cmd.to Target.element { y := some 0, opacity := some 1 } cfg.duration
       cfg.delay cfg.ease (createScrollTriggerConfig cfg)]

/-- setupSlideLeft (part_000 lines 535-546). -/
def setupSlideLeft : Builder := fun _nav _e cfg =>
  Except.ok
    [Cmd.set Target.element { x := some 100, opacity := some 0 },
     Cmd.to Target.element { x := some 0, opacity := some 1 } cfg.duration
       cfg.delay cfg.ease (createScrollTriggerConfig cfg)]

/-- setupSlideRight (part_000 lines 551-562). -/
def setupSlideRight : Builder := fun _nav _e cfg =>
  Except.ok
    [Cmd.set Target.element { x := some (-100), opacity := some 0 },
     Cmd.to Target.element { x := some 0, opacity := some 1 } cfg.duration
       cfg.delay cfg.ease (createScrollTriggerConfig cfg)]

/-- setupScaleIn (part_000 lines 567-578). -/
def setupScaleIn : Builder := fun _nav _e cfg =>
  Except.ok
    [Cmd.set Target.element { opacity := some 0, scale := some 0 },
     Cmd.to Target.element { opacity := some 1, scale := some 1 } cfg.duration
       cfg.delay cfg.ease (createScrollTriggerConfig cfg)]

/-- setupRotateIn (part_000 lines 583-598). -/
def setupRotateIn : Builder := fun _nav _e cfg =>
  Except.ok
    [Cmd.set Target.element
       { opacity := some 0, rotation := some 180, centerOrigin := true },
     Cmd.to Target.element { opacity := some 1, rotation := some 0 }
       cfg.duration cfg.delay cfg.ease (createScrollTriggerConfig cfg)]

/-- setupStaggerChildren (part_000 lines 603-616). -/
def setupStaggerChildren : Builder := fun _nav _e cfg =>
  Except.ok
    [Cmd.set Target.children { y := some 50, opacity := some 0 },
     Cmd.toCollection Target.children { y := some 0, opacity := some 1 }
       cfg.duration cfg.stagger cfg.delay cfg.ease
       (createScrollTriggerConfig cfg)]

/-- The scrub expression of setupImageParallax (part_000 line 633): with a
boolean parsed scrub this is 1 when the flag is true and false otherwise. -/
def imageParallaxScrub (scrub : Bool) : ScrubVal :=
  if scrub then ScrubVal.n 1 else ScrubVal.b false

/-- setupImageParallax (part_000 lines 623-640). -/
def setupImageParallax : Builder := fun _nav _e cfg =>
  Except.ok
    [Cmd.parallaxTo Target.element cfg.parallaxAmount "none"
       { trigger := Target.element, startPos := cfg.trigger,
         endPos := cfg.endPos, scrub := imageParallaxScrub cfg.scrub,
         toggleActions := cfg.toggleActions, once := cfg.once }]

/-- getAnimationConfigs (part_000 lines 271-285): the name-to-builder
registry. -/
def getAnimationConfigs (t : String) : Option Builder :=
  if t = "text-reveal" then some setupTextReveal
  else if t = "text-reveal-story" then some setupTextRevealStory
  else if t = "fade-in" then some setupFadeIn
  else if t = "slide-up" then some setupSlideUp
  else if t = "slide-left" then some setupSlideLeft
  else if t = "slide-right" then some setupSlideRight
  else if t = "scale-in" then some setupScaleIn
  else if t = "rotate-in" then some setupRotateIn
  else if t = "stagger-children" then some setupStaggerChildren
  else if t = "horizontal-scroll" then some setupHorizontalScroll
  else if t = "image-parallax" then some setupImageParallax
  else none

/-! ### The dispatcher (src/unnamed/part_000 lines 669-739) -/

/-- A per-element result object as resolved by initAnimations. -/
structure AnimResult where
  success : Bool
  type : String
  index : Nat
  skipped : Bool
  error : Option String
  deriving DecidableEq

/-- Per-element outcome: the resolved result plus instrumentation recording
which builder (if any) was invoked and the engine commands it emitted. -/
structure ElemOutcome where
  result : AnimResult
  invoked : Option String
  cmds : List Cmd
  deriving DecidableEq

/-- The registry type used by the dispatcher. -/
def Registry : Type := String → Option Builder

/-- Processing of one enumerated element (the promise body of part_000 lines
682-713): parse, skip on empty/absent type, look up the builder, invoke it
catching exceptions per element. -/
def processElement (B : Registry) (nav : Navigator) (e : Element) (i : Nat) :
    ElemOutcome :=
  let config := parseAnimationData e.dataset
  match config.type with
  | none =>
    { result := { success := true, type := "skipped", index := i,
                  skipped := true, error := none },
      invoked := none, cmds := [] }
  | some t =>
    match B t with
    | some setup =>
      match setup nav e config with
      | Except.ok cmds =>
        { result := { success := true, type := t, index := i, skipped := false,
                      error := none },
          invoked := some t, cmds := cmds }
      | Except.error err =>
        { result := { success := false, type := t, index := i, skipped := false,
                      error := some err },
          invoked := some t, cmds := [] }
    | none =>
      { result := { success := false, type := t, index := i, skipped := false,
                    error := some "Unknown type" },
        invoked := none, cmds := [] }

/-- Index-carrying enumeration of the element list, as the indexed map of
part_000 lines 680-715. -/
def dispatchFrom (B : Registry) (nav : Navigator) : Nat → List Element → List ElemOutcome
  | _, [] => []
  | i, e :: rest => processElement B nav e i :: dispatchFrom B nav (i + 1) rest

/-- The settle delay of the deferred ScrollTrigger.refresh (part_000
line 736: setTimeout(..., 100)). -/
def refreshDelayMs : Nat := 100

/-- One dispatch run: the per-element outcomes (settled via Promise.all) and
the commands executed after the settle delay. -/
structure DispatchRun where
  outcomes : List ElemOutcome
  settleDelayMs : Nat
  delayedCmds : List Cmd
  deriving DecidableEq

/-- initAnimations (part_000 lines 669-739): process every element, then
after the settle delay run the one deferred global refresh. -/
def initAnimations (B : Registry) (nav : Navigator) (es : List Element) :
    DispatchRun :=
  { outcomes := dispatchFrom B nav 0 es, settleDelayMs := refreshDelayMs,
    delayedCmds := [Cmd.refresh] }

/-- Whether a command is a global ScrollTrigger.refresh call. -/
def isRefreshCmd : Cmd → Bool
  | Cmd.refresh => true
  | _ => false

/-- Number of refresh calls in a command list. -/
def refreshCountIn (cmds : List Cmd) : Nat :=
  (cmds.filter isRefreshCmd).length

/-- Total number of ScrollTrigger.refresh invocations a dispatch run makes:
those emitted synchronously by builders plus the deferred one. -/
def totalRefreshCount (run : DispatchRun) : Nat :=
  refreshCountIn ((run.outcomes.map (fun o => o.cmds)).flatten) +
    refreshCountIn run.delayedCmds

/-- An element whose horizontal-scroll setup completes (reaches the refresh
call): type horizontal-scroll, not mobile, first item found, nonzero item
count. -/
def completesHorizontalScroll (nav : Navigator) (e : Element) : Bool :=
  (match (parseAnimationData e.dataset).type with
   | some t => t == "horizontal-scroll"
   | none => false)
  && !isMobile nav && e.hsFirstItemFound && !(e.hsItemCount == 0)

/-! ### DesktopScrollManager, breakpoint variant
(src/main.js second document, lines 771-939) -/

/-- The alternatives of the touch-detection user-agent regex
(main.js line 790). -/
def touchUAParts : List String :=
  ["Android", "webOS", "iPhone", "iPad", "iPod", "BlackBerry", "IEMobile",
   "Opera Mini", "Mobile", "mobile", "CriOS"]

/-- Ambient browser state read by detectTouchDevice and isDesktopSize. -/
structure DeviceState where
  /-- window.innerWidth in CSS pixels (integral in browsers). -/
  innerWidth : ℤ
  /-- ontouchstart in window. -/
  ontouchstart : Bool
  /-- navigator.maxTouchPoints. -/
  maxTouchPoints : Nat
  userAgent : String
  /-- window.matchMedia is available. -/
  matchMediaAvail : Bool
  /-- The (pointer: coarse) media query matches. -/
  pointerCoarse : Bool
  /-- The (hover: hover) media query matches. -/
  hoverHover : Bool
  deriving DecidableEq

/-- Method 1 (main.js line 787): touch events support. -/
def hasTouchSignal (d : DeviceState) : Bool :=
  d.ontouchstart || decide (0 < d.maxTouchPoints)

/-- Method 2 (main.js line 790): mobile user agent. -/
def mobileUserAgentSignal (d : DeviceState) : Bool :=
  touchUAParts.any (fun p => containsCI d.userAgent p)

/-- Method 3 (main.js line 793): coarse pointer. -/
def coarsePointerSignal (d : DeviceState) : Bool :=
  d.matchMediaAvail && d.pointerCoarse

/-- Method 4 (main.js line 796): hover capability. -/
def canHoverSignal (d : DeviceState) : Bool :=
  d.matchMediaAvail && d.hoverHover

/-- detectTouchDevice (main.js lines 785-800): any signal suffices. -/
def detectTouchDevice (d : DeviceState) : Bool :=
  hasTouchSignal d || mobileUserAgentSignal d || coarsePointerSignal d ||
    !canHoverSignal d

/-- isDesktopSize (main.js lines 805-807): viewport is strictly wider than
the 991px breakpoint. -/
def isDesktopSize (d : DeviceState) : Bool :=
  decide (991 < d.innerWidth)

/-- shouldEnableScroll (main.js lines 812-818). -/
def shouldEnableScroll (d : DeviceState) : Bool :=
  isDesktopSize d && !detectTouchDevice d

/-- Smooth-scroll controller state with create/destroy instrumentation. -/
structure ManagerState where
  /-- Whether this.lenis is non-null (a live session exists). -/
  lenis : Bool
  /-- Number of sessions created so far. -/
  creates : Nat
  /-- Number of sessions destroyed so far. -/
  destroys : Nat
  deriving DecidableEq

/-- initLenis (main.js lines 823-860): no-op when the Lenis library is not
loaded, otherwise creates a session. -/
def initLenis (lenisLoaded : Bool) (s : ManagerState) : ManagerState :=
  if lenisLoaded then
    { lenis := true, creates := s.creates + 1, destroys := s.destroys }
  else s

/-- destroyLenis (main.js lines 865-871): no-op when no session exists. -/
def destroyLenis (s : ManagerState) : ManagerState :=
  if s.lenis then
    { lenis := false, creates := s.creates, destroys := s.destroys + 1 }
  else s

/-- The debounced body of handleResize (main.js lines 876-887). -/
def handleResizeStep (lenisLoaded : Bool) (d : DeviceState) (s : ManagerState) :
    ManagerState :=
  let shouldEnable := shouldEnableScroll d
  if shouldEnable && !s.lenis then initLenis lenisLoaded s
  else if !shouldEnable && s.lenis then destroyLenis s
  else s

/-! ### Footer auto-navigation (src/unnamed/part_000 lines 1063-1258) -/

/-- A nav link inside the nav links wrap. -/
structure NavLink where
  /-- The href attribute; none when absent (falsy in the JS check, like an
  empty string). -/
  href : Option String
  /-- Whether the link carries the w--current class. -/
  isCurrent : Bool
  deriving DecidableEq

/-- The nav DOM read by navigateToNextPage. -/
structure FooterDom where
  /-- The .nav_link elements of the nav links wrap, in document order. -/
  navLinks : List NavLink
  /-- Whether the closest .nav_links_wrap ancestor of the current link
  exists. -/
  wrapFound : Bool
  deriving DecidableEq

/-- navigateToNextPage (part_000 lines 1096-1141): find the current link,
its wrap, the cyclically next link, and click it when its href is a real
target.  Returns the index of the link clicked, or none when no navigation
happens. -/
def navigateToNextPage (dom : FooterDom) : Option Nat :=
  match dom.navLinks.findIdx? (fun l => l.isCurrent) with
  | none => none
  | some currentIndex =>
    if !dom.wrapFound then none
    else
      let nextIndex := (currentIndex + 1) % dom.navLinks.length
      match dom.navLinks[nextIndex]? with
      | none => none
      | some link =>
        match link.href with
        | none => none
        | some h => if h ≠ "" ∧ h ≠ "#" then some nextIndex else none

/-- The fixed duration of the footer countdown timeline (part_000
line 1160). -/
def totalAnimationDuration : ℚ := 10

/-- Footer animation state: timeline progress in 0..1, whether the timeline
is playing, the completion flag, and an instrumentation count of the nav
clicks fired. -/
structure FooterState where
  progress : ℚ
  playing : Bool
  isAnimationComplete : Bool
  navClicks : Nat
  deriving DecidableEq

/-- setupHeadingAnimation (part_000 lines 1144-1171): the timeline is
created paused at progress 0. -/
def setupHeadingAnimation : FooterState :=
  { progress := 0, playing := false, isAnimationComplete := false,
    navClicks := 0 }

/-- startHeadingAnimation (part_000 lines 1174-1179): restart from 0 only
while the completion flag is clear. -/
def startHeadingAnimation (s : FooterState) : FooterState :=
  if !s.isAnimationComplete then { s with progress := 0, playing := true }
  else s

/-- Advancing the playing timeline by dt seconds of the 10 second duration;
on reaching the end the onComplete callback of part_000 lines 1153-1156
fires once: it sets the completion flag and calls navigateToNextPage. -/
def tickAnimation (dom : FooterDom) (dt : ℚ) (s : FooterState) : FooterState :=
  if !s.playing then s
  else
    let p := s.progress + dt / totalAnimationDuration
    if 1 ≤ p then
      let s1 : FooterState :=
        { progress := 1, playing := false, isAnimationComplete := true,
          navClicks := s.navClicks }
      match navigateToNextPage dom with
      | some _ => { s1 with navClicks := s1.navClicks + 1 }
      | none => s1
    else { s with progress := p }

/-- resetHeadingAnimation (part_000 lines 1182-1194): pause, rewind to
progress 0 and clear the completion flag (the nav click count is
instrumentation, not JS state, and is untouched). -/
def resetHeadingAnimation (s : FooterState) : FooterState :=
  { s with playing := false, progress := 0, isAnimationComplete := false }

/-! ### Derived observation functions -/

/-- The command list of a builder invocation (empty on the caught-exception
channel, where the dispatcher records a failure). -/
def cmdsOfOk : Except String (List Cmd) → List Cmd
  | Except.ok cmds => cmds
  | Except.error _ => []

/-- All timeline entries registered by a command list. -/
def timelineEntriesOf : List Cmd → List TimelineEntry
  | [] => []
  | Cmd.timeline _ entries :: rest => entries ++ timelineEntriesOf rest
  | _ :: rest => timelineEntriesOf rest

/-- The scrub values of all scrollTrigger configs registered by a command
list, in order. -/
def triggerScrubs : List Cmd → List ScrubVal
  | [] => []
  | Cmd.timeline st _ :: rest => st.scrub :: triggerScrubs rest
  | Cmd.to _ _ _ _ _ st :: rest => st.scrub :: triggerScrubs rest
  | Cmd.toCollection _ _ _ _ _ _ st :: rest => st.scrub :: triggerScrubs rest
  | Cmd.parallaxTo _ _ _ st :: rest => st.scrub :: triggerScrubs rest
  | Cmd.hsTo _ _ _ trig :: rest => trig.scrub :: triggerScrubs rest
  | _ :: rest => triggerScrubs rest

/-! ### Helper lemmas about the dispatcher -/

theorem dispatchFrom_length (B : Registry) (nav : Navigator) :
    ∀ (n : Nat) (es : List Element),
      (dispatchFrom B nav n es).length = es.length := by
  intro n es
  induction es generalizing n with
  | nil => rfl
  | cons e rest ih => simp [dispatchFrom, ih]

theorem dispatchFrom_getElem? (B : Registry) (nav : Navigator) :
    ∀ (es : List Element) (n i : Nat),
      (dispatchFrom B nav n es)[i]? =
        (es[i]?).map (fun e => processElement B nav e (n + i)) := by
  intro es
  induction es with
  | nil => intro n i; simp [dispatchFrom]
  | cons e rest ih =>
    intro n i
    cases i with
    | zero => simp [dispatchFrom]
    | succ j =>
      have h := ih (n + 1) j
      have harith : n + 1 + j = n + (j + 1) := by omega
      rw [harith] at h
      simpa [dispatchFrom] using h

/-- The story text-reveal builder never rejects (both its branches resolve
ok). -/
theorem setupTextRevealStory_ok (nav : Navigator) (e : Element)
    (cfg : AnimConfig) : ∃ cmds, setupTextRevealStory nav e cfg = Except.ok cmds := by
  unfold setupTextRevealStory setupTextReveal
  cases hs : e.hasStorySection <;> simp [hs]

theorem setupHorizontalScroll_ok (nav : Navigator) (e : Element)
    (cfg : AnimConfig) : ∃ cmds, setupHorizontalScroll nav e cfg = Except.ok cmds := by
  unfold setupHorizontalScroll
  cases hm : isMobile nav
  · cases hf : e.hsFirstItemFound
    · simp [hf]
    · by_cases hc : e.hsItemCount = 0 <;> simp [hf, hc]
  · simp

set_option maxHeartbeats 1000000 in
/-- Every builder of the registry is total: it resolves with an ok command
list on every input (early returns included), so within the embedding only
an unregistered type can produce a failure result. -/
theorem registry_builder_ok (t : String) (b : Builder)
    (h : getAnimationConfigs t = some b) (nav : Navigator) (e : Element)
    (cfg : AnimConfig) : ∃ cmds, b nav e cfg = Except.ok cmds := by
  unfold getAnimationConfigs at h
  repeat' split at h
  all_goals first
    | exact Option.noConfusion h
    | (injection h with hb; subst hb)
  all_goals first
    | exact setupTextRevealStory_ok nav e cfg
    | exact setupHorizontalScroll_ok nav e cfg
    | exact ⟨_, rfl⟩

theorem refreshCountIn_append (a b : List Cmd) :
    refreshCountIn (a ++ b) = refreshCountIn a + refreshCountIn b := by
  simp [refreshCountIn, List.filter_append]

/-- Per-element refresh accounting: of all registered builders only a
completing horizontal-scroll setup calls ScrollTrigger.refresh, exactly
once. -/
theorem processElement_refreshCount (nav : Navigator) (e : Element) (i : Nat) :
    refreshCountIn (processElement getAnimationConfigs nav e i).cmds =
      (if completesHorizontalScroll nav e then 1 else 0) := by
  unfold processElement completesHorizontalScroll
  cases ht : (parseAnimationData e.dataset).type with
  | none => simp [ht, refreshCountIn]
  | some t =>
    simp only [ht]
    by_cases h1 : t = "text-reveal"
    · simp [getAnimationConfigs, h1, setupTextReveal, refreshCountIn,
            isRefreshCmd]
    by_cases h2 : t = "text-reveal-story"
    · cases hs : e.hasStorySection <;>
        simp [getAnimationConfigs, h1, h2, setupTextRevealStory,
              setupTextReveal, hs, refreshCountIn, isRefreshCmd]
    by_cases h3 : t = "fade-in"
    · simp [getAnimationConfigs, h1, h2, h3, setupFadeIn, refreshCountIn,
            isRefreshCmd]
    by_cases h4 : t = "slide-up"
    · simp [getAnimationConfigs, h1, h2, h3, h4, setupSlideUp, refreshCountIn,
            isRefreshCmd]
    by_cases h5 : t = "slide-left"
    · simp [getAnimationConfigs, h1, h2, h3, h4, h5, setupSlideLeft,
            refreshCountIn, isRefreshCmd]
    by_cases h6 : t = "slide-right"
    · simp [getAnimationConfigs, h1, h2, h3, h4, h5, h6, setupSlideRight,
            refreshCountIn, isRefreshCmd]
    by_cases h7 : t = "scale-in"
    · simp [getAnimationConfigs, h1, h2, h3, h4, h5, h6, h7, setupScaleIn,
            refreshCountIn, isRefreshCmd]
    by_cases h8 : t = "rotate-in"
    · simp [getAnimationConfigs, h1, h2, h3, h4, h5, h6, h7, h8, setupRotateIn,
            refreshCountIn, isRefreshCmd]
    by_cases h9 : t = "stagger-children"
    · simp [getAnimationConfigs, h1, h2, h3, h4, h5, h6, h7, h8, h9,
            setupStaggerChildren, refreshCountIn, isRefreshCmd]
    by_cases h10 : t = "horizontal-scroll"
    · cases hm : isMobile nav
      · cases hf : e.hsFirstItemFound
        · simp [getAnimationConfigs, h1, h2, h3, h4, h5, h6, h7, h8, h9, h10,
                setupHorizontalScroll, hm, hf, refreshCountIn, isRefreshCmd]
        · by_cases hc : e.hsItemCount = 0
          · simp [getAnimationConfigs, h1, h2, h3, h4, h5, h6, h7, h8, h9,
                  h10, setupHorizontalScroll, hm, hf, hc, refreshCountIn,
                  isRefreshCmd]
          · simp [getAnimationConfigs, h1, h2, h3, h4, h5, h6, h7, h8, h9,
                  h10, setupHorizontalScroll, hm, hf, hc, refreshCountIn,
                  isRefreshCmd]
      · simp [getAnimationConfigs, h1, h2, h3, h4, h5, h6, h7, h8, h9, h10,
              setupHorizontalScroll, hm, refreshCountIn, isRefreshCmd]
    by_cases h11 : t = "image-parallax"
    · simp [getAnimationConfigs, h1, h2, h3, h4, h5, h6, h7, h8, h9, h10, h11,
            setupImageParallax, refreshCountIn, isRefreshCmd]
    · simp [getAnimationConfigs, h1, h2, h3, h4, h5, h6, h7, h8, h9, h10, h11,
            refreshCountIn, isRefreshCmd]

/-- Summed refresh accounting over the enumerated elements. -/
theorem dispatchFrom_refreshCount (nav : Navigator) :
    ∀ (es : List Element) (n : Nat),
      refreshCountIn
          (((dispatchFrom getAnimationConfigs nav n es).map
            (fun o => o.cmds)).flatten) =
        (es.filter (completesHorizontalScroll nav)).length := by
  intro es
  induction es with
  | nil => intro n; simp [dispatchFrom, refreshCountIn]
  | cons e rest ih =>
    intro n
    simp only [dispatchFrom, List.map_cons, List.flatten_cons,
      refreshCountIn_append, processElement_refreshCount, ih (n + 1),
      List.filter_cons]
    cases hce : completesHorizontalScroll nav e
    · simp [hce]
    · simp [hce]
      omega

/-! ### Concrete inputs used by witnesses and counterexamples -/

/-- A desktop navigator: the structured UA data reports not mobile. -/
def navDesktop : Navigator :=
  { userAgentDataMobile := some false, userAgent := "Mozilla" }

/-- A directive element with an explicitly empty animation type. -/
def emptyTypeElement : Element :=
  { dataset := { scrollAnimation := some "" } }

/-- A horizontal-scroll directive: five items, visible width 1000, list
scroll width 3000, all numeric attributes left to their defaults. -/
def hsElement : Element :=
  { dataset := { scrollAnimation := some "horizontal-scroll" },
    hsFirstItemFound := true, hsItemCount := 5,
    offsetWidth := 1000, listScrollWidth := 3000 }

/-- A plain fade-in directive element. -/
def fadeElement : Element :=
  { dataset := { scrollAnimation := some "fade-in" } }

/-- A directive element with an unregistered animation type. -/
def badTypeElement : Element :=
  { dataset := { scrollAnimation := some "bogus-type" } }

/-! ### C1 -/

/-- C1: for every element enumerated by the dispatcher whose parsed
animation type is empty or absent, the resolved result is success true with
type skipped, and no animation builder is invoked for it (no builder name
recorded, no engine command emitted). -/
theorem empty_type_dispatch_skips (nav : Navigator) (es : List Element)
    (i : Nat) (e : Element) (he : es[i]? = some e)
    (ht : (parseAnimationData e.dataset).type = none) :
    (initAnimations getAnimationConfigs nav es).outcomes[i]? = some
      { result := { success := true, type := "skipped", index := i,
                    skipped := true, error := none },
        invoked := none, cmds := [] } := by
  show (dispatchFrom getAnimationConfigs nav 0 es)[i]? = _
  rw [dispatchFrom_getElem?, he]
  simp [processElement, ht]

/-- Witness for C1: a one-element batch whose element has an explicitly
empty data-scroll-animation attribute resolves as a skip. -/
theorem empty_type_dispatch_skips_witness :
    (initAnimations getAnimationConfigs navDesktop
        [emptyTypeElement]).outcomes[0]? = some
      { result := { success := true, type := "skipped", index := 0,
                    skipped := true, error := none },
        invoked := none, cmds := [] } :=
  empty_type_dispatch_skips navDesktop [emptyTypeElement] 0 emptyTypeElement
    rfl (by decide)

/-! ### C2 -/

/-- C2 counterexample: a dispatch run over a single completing
horizontal-scroll directive on a desktop device invokes
ScrollTrigger.refresh twice per run (once synchronously inside the builder,
part_000 line 493, and once deferred after the settle delay), refuting
"exactly once, never more than once per dispatch run". -/
theorem dispatch_horizontal_scroll_double_refresh :
    totalRefreshCount
        (initAnimations getAnimationConfigs navDesktop [hsElement]) = 2 ∧
    totalRefreshCount
        (initAnimations getAnimationConfigs navDesktop [hsElement]) ≠ 1 := by
  constructor <;> decide

/-- C2 amended: the deferred post-batch refresh fires exactly once per
dispatch run after the fixed settle delay, but the total number of
ScrollTrigger.refresh invocations of a run is one plus the number of
elements whose horizontal-scroll setup completes, because that builder also
refreshes synchronously. -/
theorem dispatch_refresh_accounting (nav : Navigator) (es : List Element) :
    (initAnimations getAnimationConfigs nav es).settleDelayMs =
      refreshDelayMs ∧
    refreshCountIn (initAnimations getAnimationConfigs nav es).delayedCmds
      = 1 ∧
    totalRefreshCount (initAnimations getAnimationConfigs nav es) =
      1 + (es.filter (completesHorizontalScroll nav)).length := by
  refine ⟨rfl, rfl, ?_⟩
  show refreshCountIn
      (((dispatchFrom getAnimationConfigs nav 0 es).map
        (fun o => o.cmds)).flatten) + refreshCountIn [Cmd.refresh] = _
  rw [dispatchFrom_refreshCount nav es 0]
  simp [refreshCountIn, isRefreshCmd]
  omega

/-! ### C7 -/

/-- C7: on a non-mobile device with a found first item and n matching items,
the horizontal-scroll builder sets the element height to n times the height
multiplier in svh, and tweens the list container horizontally to exactly
minus (list scroll width - element visible width). -/
theorem horizontal_scroll_height_and_translation (nav : Navigator)
    (e : Element) (cfg : AnimConfig) (hm : isMobile nav = false)
    (hf : e.hsFirstItemFound = true) (hn : e.hsItemCount ≠ 0) :
    setupHorizontalScroll nav e cfg = Except.ok
      [Cmd.setHeightSvh ((e.hsItemCount : ℚ) * cfg.heightMultiplier),
       Cmd.hsTo Target.listContainer (-(e.listScrollWidth - e.offsetWidth))
         "none" hsTriggerCfg,
       Cmd.refresh] := by
  unfold setupHorizontalScroll
  simp [hm, hf, hn]

/-- Witness for C7: five items with the default height multiplier 50 give
height 250svh, and widths 1000 visible / 3000 scroll give translation
-2000. -/
theorem horizontal_scroll_height_and_translation_witness :
    setupHorizontalScroll navDesktop hsElement
        (parseAnimationData hsElement.dataset) = Except.ok
      [Cmd.setHeightSvh 250,
       Cmd.hsTo Target.listContainer (-2000) "none" hsTriggerCfg,
       Cmd.refresh] := by
  rw [horizontal_scroll_height_and_translation navDesktop hsElement
    (parseAnimationData hsElement.dataset) (by decide) (by decide) (by decide)]
  have hmult : (parseAnimationData hsElement.dataset).heightMultiplier = 50 := by
    simp [parseAnimationData, hsElement, numOr]
  rw [hmult]
  norm_num [hsElement]

/-! ### C8 -/

/-- C8: the text-reveal builder creates exactly W sub-animations for the W
split sub-units of the configured split mode, the i-th placed at timeline
offset i times the stagger interval, each tweening its own sub-unit to full
opacity after the initial set of all sub-units to partial opacity 0.3. -/
theorem text_reveal_stagger_offsets (nav : Navigator) (e : Element)
    (cfg : AnimConfig) :
    (cmdsOfOk (setupTextReveal nav e cfg)).head? =
      some (Cmd.set Target.splitUnits { opacity := some 0.3 }) ∧
    (timelineEntriesOf (cmdsOfOk (setupTextReveal nav e cfg))).length =
      targetsCount e cfg.splitType ∧
    (timelineEntriesOf (cmdsOfOk (setupTextReveal nav e cfg))).map
        (fun en => en.position) =
      (List.range (targetsCount e cfg.splitType)).map
        (fun i : Nat => (i : ℚ) * cfg.stagger) ∧
    (timelineEntriesOf (cmdsOfOk (setupTextReveal nav e cfg))).map
        (fun en => en.target) =
      (List.range (targetsCount e cfg.splitType)).map
        (fun i => Target.splitUnit i) ∧
    (timelineEntriesOf (cmdsOfOk (setupTextReveal nav e cfg))).map
        (fun en => en.props) =
      List.replicate (targetsCount e cfg.splitType)
        ({ opacity := some 1 } : TweenProps) := by
  have hrep : ∀ (l : List Nat),
      l.map (fun _ => ({ opacity := some 1 } : TweenProps)) =
        List.replicate l.length ({ opacity := some 1 } : TweenProps) := by
    intro l
    induction l with
    | nil => rfl
    | cons a t ih => simp [ih, List.replicate_succ]
  have hent : timelineEntriesOf (cmdsOfOk (setupTextReveal nav e cfg)) =
      (List.range (targetsCount e cfg.splitType)).map fun i =>
        ({ target := Target.splitUnit i, props := { opacity := some 1 },
           duration := cfg.duration, ease := cfg.ease,
           position := (i : ℚ) * cfg.stagger } : TimelineEntry) := by
    simp [setupTextReveal, cmdsOfOk, timelineEntriesOf]
  refine ⟨rfl, ?_, ?_, ?_, ?_⟩
  · rw [hent]
    simp
  · rw [hent, List.map_map]
    rfl
  · rw [hent, List.map_map]
    rfl
  · rw [hent, List.map_map]
    show (List.range (targetsCount e cfg.splitType)).map
        (fun _ => ({ opacity := some 1 } : TweenProps)) = _
    rw [hrep]
    simp

/-! ### C10 -/

theorem numOr_zero_attr (d : ℚ) : numOr (some "0") d = d := by
  have h0 : jsParseFloat "0" = some 0 := by simp [jsParseFloat, digitsToNat]
  simp [numOr, h0]

theorem numOr_ne_zero (attr : Option String) (d : ℚ) (hd : d ≠ 0) :
    numOr attr d ≠ 0 := by
  cases attr with
  | none => simpa [numOr] using hd
  | some s =>
    cases h : jsParseFloat s with
    | none => simpa [numOr, h] using hd
    | some x =>
      by_cases hx : x = 0
      · simp [numOr, h, hx, hd]
      · simp [numOr, h, hx]

/-- C10: parseAnimationData coerces an explicit zero (or non-numeric) value
of the falsy-or numeric fields to the default: duration 0 becomes 1,
stagger 0 becomes 0.1, heightMultiplier 0 becomes 50, parallaxAmount 0
becomes 50 - and no markup value at all can make any of these fields
zero. -/
theorem parse_zero_numeric_attributes_defaulted (ds : Dataset) :
    (parseAnimationData { ds with scrollDuration := some "0" }).duration
      = 1 ∧
    (parseAnimationData { ds with scrollStagger := some "0" }).stagger
      = 0.1 ∧
    (parseAnimationData
        { ds with scrollHeightMultiplier := some "0" }).heightMultiplier
      = 50 ∧
    (parseAnimationData
        { ds with scrollParallaxAmount := some "0" }).parallaxAmount
      = 50 ∧
    (parseAnimationData
        { ds with scrollDuration := some "not-a-number" }).duration = 1 ∧
    (parseAnimationData ds).duration ≠ 0 ∧
    (parseAnimationData ds).stagger ≠ 0 ∧
    (parseAnimationData ds).heightMultiplier ≠ 0 ∧
    (parseAnimationData ds).parallaxAmount ≠ 0 := by
  have hnan : jsParseFloat "not-a-number" = none := by decide
  refine ⟨?_, ?_, ?_, ?_, ?_, ?_, ?_, ?_, ?_⟩
  · simp [parseAnimationData, numOr_zero_attr]
  · simp [parseAnimationData, numOr_zero_attr]
  · simp [parseAnimationData, numOr_zero_attr]
  · simp [parseAnimationData, numOr_zero_attr]
  · simp [parseAnimationData, numOr, hnan]
  · exact numOr_ne_zero _ _ (by norm_num)
  · exact numOr_ne_zero _ _ (by norm_num)
  · exact numOr_ne_zero _ _ (by norm_num)
  · exact numOr_ne_zero _ _ (by norm_num)

/-! ### C9 -/

/-- C9 counterexample: the horizontal-scroll builder does not pass the
parsed scrub flag through - for a directive whose parsed scrub is false it
registers its trigger with scrub hardcoded to true - refuting "the other
builders pass the scrub flag through unchanged". -/
theorem horizontal_scroll_not_scrub_passthrough :
    (parseAnimationData hsElement.dataset).scrub = false ∧
    triggerScrubs (cmdsOfOk (setupHorizontalScroll navDesktop hsElement
        (parseAnimationData hsElement.dataset))) = [ScrubVal.b true] ∧
    ScrubVal.b true ≠
      ScrubVal.b (parseAnimationData hsElement.dataset).scrub := by
  refine ⟨?_, ?_, ?_⟩ <;> decide

/-- C9 amended: text-reveal and text-reveal-story register scrub as the
parsed scrub value or 1 when it is falsy, hence always a truthy scrub; the
builders that use the shared createScrollTriggerConfig helper (fade-in, the
slides, scale-in, rotate-in, stagger-children) pass the parsed scrub flag
through unchanged; horizontal-scroll hardcodes scrub true (see the
counterexample) and image-parallax maps true to 1 and false to false. -/
theorem builder_scrub_policy (nav : Navigator) (e : Element)
    (cfg : AnimConfig) :
    triggerScrubs (cmdsOfOk (setupTextReveal nav e cfg))
      = [scrubOr1 cfg.scrub] ∧
    triggerScrubs (cmdsOfOk (setupTextRevealStory nav e cfg))
      = [scrubOr1 cfg.scrub] ∧
    scrubOr1 cfg.scrub
      = (if cfg.scrub then ScrubVal.b true else ScrubVal.n 1) ∧
    (scrubOr1 cfg.scrub).truthy = true ∧
    (createScrollTriggerConfig cfg).scrub = ScrubVal.b cfg.scrub ∧
    triggerScrubs (cmdsOfOk (setupFadeIn nav e cfg))
      = [ScrubVal.b cfg.scrub] ∧
    triggerScrubs (cmdsOfOk (setupSlideUp nav e cfg))
      = [ScrubVal.b cfg.scrub] ∧
    triggerScrubs (cmdsOfOk (setupSlideLeft nav e cfg))
      = [ScrubVal.b cfg.scrub] ∧
    triggerScrubs (cmdsOfOk (setupSlideRight nav e cfg))
      = [ScrubVal.b cfg.scrub] ∧
    triggerScrubs (cmdsOfOk (setupScaleIn nav e cfg))
      = [ScrubVal.b cfg.scrub] ∧
    triggerScrubs (cmdsOfOk (setupRotateIn nav e cfg))
      = [ScrubVal.b cfg.scrub] ∧
    triggerScrubs (cmdsOfOk (setupStaggerChildren nav e cfg))
      = [ScrubVal.b cfg.scrub] ∧
    triggerScrubs (cmdsOfOk (setupImageParallax nav e cfg))
      = [imageParallaxScrub cfg.scrub] ∧
    imageParallaxScrub cfg.scrub
      = (if cfg.scrub then ScrubVal.n 1 else ScrubVal.b false) := by
  refine ⟨?_, ?_, rfl, ?_, rfl, ?_, ?_, ?_, ?_, ?_, ?_, ?_, ?_, rfl⟩
  · simp [setupTextReveal, cmdsOfOk, triggerScrubs]
  · cases hs : e.hasStorySection <;>
      simp [setupTextRevealStory, setupTextReveal, hs, cmdsOfOk,
        triggerScrubs]
  · cases hb : cfg.scrub <;> simp [scrubOr1, ScrubVal.truthy]
  · simp [setupFadeIn, cmdsOfOk, triggerScrubs, createScrollTriggerConfig]
  · simp [setupSlideUp, cmdsOfOk, triggerScrubs, createScrollTriggerConfig]
  · simp [setupSlideLeft, cmdsOfOk, triggerScrubs, createScrollTriggerConfig]
  · simp [setupSlideRight, cmdsOfOk, triggerScrubs, createScrollTriggerConfig]
  · simp [setupScaleIn, cmdsOfOk, triggerScrubs, createScrollTriggerConfig]
  · simp [setupRotateIn, cmdsOfOk, triggerScrubs, createScrollTriggerConfig]
  · simp [setupStaggerChildren, cmdsOfOk, triggerScrubs,
      createScrollTriggerConfig]
  · simp [setupImageParallax, cmdsOfOk, triggerScrubs]

/-! ### C3 -/

/-- A wide desktop device with no touch signals. -/
def deskDevice : DeviceState :=
  { innerWidth := 1200, ontouchstart := false, maxTouchPoints := 0,
    userAgent := "Mozilla", matchMediaAvail := true, pointerCoarse := false,
    hoverHover := true }

/-- A narrow (below-breakpoint) device with no touch signals. -/
def narrowDevice : DeviceState :=
  { innerWidth := 500, ontouchstart := false, maxTouchPoints := 0,
    userAgent := "Mozilla", matchMediaAvail := true, pointerCoarse := false,
    hoverHover := true }

/-- C3: when the viewport is at most the 991px breakpoint, or any single
touch/mobile signal holds (touch events, mobile user agent, coarse pointer,
inability to hover), the classification is mobile/touch (not desktop-sized,
or touch detected), shouldEnableScroll is false, and the resize step leaves
no live smooth-scroll session. -/
theorem mobile_signals_disable_smooth_scroll (d : DeviceState)
    (h : d.innerWidth ≤ 991 ∨ hasTouchSignal d = true ∨
         mobileUserAgentSignal d = true ∨ coarsePointerSignal d = true ∨
         canHoverSignal d = false) :
    (isDesktopSize d = false ∨ detectTouchDevice d = true) ∧
    shouldEnableScroll d = false ∧
    ∀ (lenisLoaded : Bool) (s : ManagerState),
      (handleResizeStep lenisLoaded d s).lenis = false := by
  have hcls : isDesktopSize d = false ∨ detectTouchDevice d = true := by
    rcases h with h | h | h | h | h
    · left
      simp [isDesktopSize]
      omega
    · right
      simp [detectTouchDevice, h]
    · right
      simp [detectTouchDevice, h]
    · right
      simp [detectTouchDevice, h]
    · right
      simp [detectTouchDevice, h]
  have hs : shouldEnableScroll d = false := by
    rcases hcls with h | h <;> simp [shouldEnableScroll, h]
  refine ⟨hcls, hs, ?_⟩
  intro lenisLoaded s
  unfold handleResizeStep
  simp only [hs]
  cases hl : s.lenis <;> simp [hl, destroyLenis]

/-- Witness for C3: a 500px-wide device classifies as non-desktop, scroll
stays disabled and the resize step leaves no session. -/
theorem mobile_signals_disable_smooth_scroll_witness :
    (isDesktopSize narrowDevice = false ∨
      detectTouchDevice narrowDevice = true) ∧
    shouldEnableScroll narrowDevice = false ∧
    (handleResizeStep true narrowDevice
      { lenis := false, creates := 0, destroys := 0 }).lenis = false := by
  have h := mobile_signals_disable_smooth_scroll narrowDevice
    (Or.inl (by norm_num [narrowDevice]))
  exact ⟨h.1, h.2.1, h.2.2 true _⟩

/-! ### C4 -/

/-- The session-accounting invariant: a live session means exactly one more
create than destroy; no session means balanced counts. -/
def sessionBalanced (s : ManagerState) : Prop :=
  (s.lenis = true → s.creates = s.destroys + 1) ∧
  (s.lenis = false → s.creates = s.destroys)

theorem handleResizeStep_balanced (d : DeviceState) (s : ManagerState)
    (h : sessionBalanced s) :
    sessionBalanced (handleResizeStep true d s) := by
  unfold handleResizeStep initLenis destroyLenis
  cases hl : s.lenis <;> cases hd : shouldEnableScroll d <;>
    simp [sessionBalanced, hl, hd] at h ⊢ <;> omega

theorem handleResizeStep_desktop_active (d : DeviceState) (s : ManagerState)
    (hd : shouldEnableScroll d = true) :
    (handleResizeStep true d s).lenis = true := by
  unfold handleResizeStep initLenis destroyLenis
  cases hl : s.lenis <;> simp [hl, hd]

theorem foldl_resize_balanced (ds : List DeviceState) (s : ManagerState)
    (h : sessionBalanced s) :
    sessionBalanced
      (ds.foldl (fun s2 d => handleResizeStep true d s2) s) := by
  induction ds generalizing s with
  | nil => exact h
  | cons d rest ih => exact ih _ (handleResizeStep_balanced d s h)

/-- C4: with the Lenis library loaded, the debounced resize step is
idempotent (already-active plus desktop is a no-op; already-inactive plus
mobile is a no-op), and after any sequence of reclassifications ending in a
desktop classification exactly one session is live and create/destroy
counts balance at one outstanding session. -/
theorem resize_lifecycle_balanced (s0 : ManagerState)
    (ds : List DeviceState) (d : DeviceState)
    (h0 : s0.lenis = false) (hb : s0.creates = s0.destroys)
    (hd : shouldEnableScroll d = true) :
    (∀ (d2 : DeviceState) (s : ManagerState), shouldEnableScroll d2 = true →
      s.lenis = true → handleResizeStep true d2 s = s) ∧
    (∀ (d2 : DeviceState) (s : ManagerState), shouldEnableScroll d2 = false →
      s.lenis = false → handleResizeStep true d2 s = s) ∧
    (∀ s : ManagerState, s.lenis = false → destroyLenis s = s) ∧
    ((ds ++ [d]).foldl (fun s2 x => handleResizeStep true x s2) s0).lenis
      = true ∧
    ((ds ++ [d]).foldl (fun s2 x => handleResizeStep true x s2) s0).creates
      = ((ds ++ [d]).foldl
          (fun s2 x => handleResizeStep true x s2) s0).destroys + 1 := by
  have hinv0 : sessionBalanced s0 := by
    constructor
    · intro hl
      rw [h0] at hl
      exact absurd hl (by simp)
    · intro _
      exact hb
  have hmid := foldl_resize_balanced ds s0 hinv0
  have hfinal :
      (ds ++ [d]).foldl (fun s2 x => handleResizeStep true x s2) s0 =
        handleResizeStep true d
          (ds.foldl (fun s2 x => handleResizeStep true x s2) s0) := by
    rw [List.foldl_append]
    rfl
  have hlive : ((ds ++ [d]).foldl
      (fun s2 x => handleResizeStep true x s2) s0).lenis = true := by
    rw [hfinal]
    exact handleResizeStep_desktop_active d _ hd
  have hbal := handleResizeStep_balanced d _ hmid
  refine ⟨?_, ?_, ?_, hlive, ?_⟩
  · intro d2 s hd2 hl
    unfold handleResizeStep
    simp [hd2, hl]
  · intro d2 s hd2 hl
    unfold handleResizeStep
    simp [hd2, hl]
  · intro s hl
    unfold destroyLenis
    simp [hl]
  · rw [hfinal] at hlive ⊢
    exact hbal.1 hlive

/-- Witness for C4: the desktop, mobile, desktop reclassification sequence
starting from the initial inactive state ends with exactly one live session
and one outstanding create. -/
theorem resize_lifecycle_balanced_witness :
    (([deskDevice, narrowDevice] ++ [deskDevice]).foldl
        (fun s2 x => handleResizeStep true x s2)
        { lenis := false, creates := 0, destroys := 0 }).lenis = true ∧
    (([deskDevice, narrowDevice] ++ [deskDevice]).foldl
        (fun s2 x => handleResizeStep true x s2)
        { lenis := false, creates := 0, destroys := 0 }).creates =
      (([deskDevice, narrowDevice] ++ [deskDevice]).foldl
        (fun s2 x => handleResizeStep true x s2)
        { lenis := false, creates := 0, destroys := 0 }).destroys + 1 := by
  have h := resize_lifecycle_balanced
    { lenis := false, creates := 0, destroys := 0 }
    [deskDevice, narrowDevice] deskDevice rfl rfl (by decide)
  exact ⟨h.2.2.2.1, h.2.2.2.2⟩

/-! ### C5 -/

/-- C5: in a batch where exactly the element at index k carries an
unregistered animation type, dispatch keeps one result per element,
records exactly one failure (Unknown type) at index k, resolves every other
index with success true (a builder run or a skip), and processes each
element independently of the others for any registry, so a per-element
failure cannot prevent the rest of the batch. -/
theorem single_unknown_type_isolated_failure (nav : Navigator)
    (es : List Element) (k : Nat) (ek : Element) (hk : es[k]? = some ek)
    (t : String) (ht : (parseAnimationData ek.dataset).type = some t)
    (hun : getAnimationConfigs t = none)
    (hok : ∀ (j : Nat) (e : Element), j ≠ k → es[j]? = some e →
      ∀ u, (parseAnimationData e.dataset).type = some u →
        (getAnimationConfigs u).isSome = true) :
    (initAnimations getAnimationConfigs nav es).outcomes.length = es.length ∧
    (initAnimations getAnimationConfigs nav es).outcomes[k]? = some
      { result := { success := false, type := t, index := k,
                    skipped := false, error := some "Unknown type" },
        invoked := none, cmds := [] } ∧
    (∀ (j : Nat) (e : Element), j ≠ k → es[j]? = some e →
      ∃ r, (initAnimations getAnimationConfigs nav es).outcomes[j]? = some r
        ∧ r.result.success = true) ∧
    (∀ (B : Registry) (es2 : List Element) (j : Nat),
      (initAnimations B nav es2).outcomes[j]? =
        (es2[j]?).map (fun e2 => processElement B nav e2 j)) := by
  refine ⟨?_, ?_, ?_, ?_⟩
  · show (dispatchFrom getAnimationConfigs nav 0 es).length = _
    exact dispatchFrom_length _ _ 0 es
  · show (dispatchFrom getAnimationConfigs nav 0 es)[k]? = _
    rw [dispatchFrom_getElem? getAnimationConfigs nav es 0 k, hk]
    simp [processElement, ht, hun]
  · intro j e hj he
    show ∃ r, (dispatchFrom getAnimationConfigs nav 0 es)[j]? = some r ∧
      r.result.success = true
    rw [dispatchFrom_getElem? getAnimationConfigs nav es 0 j, he]
    refine ⟨processElement getAnimationConfigs nav e (0 + j), rfl, ?_⟩
    cases hu : (parseAnimationData e.dataset).type with
    | none => simp [processElement, hu]
    | some u =>
      have hsome := hok j e hj he u hu
      obtain ⟨b, hb⟩ := Option.isSome_iff_exists.mp hsome
      obtain ⟨cmds, hcmds⟩ :=
        registry_builder_ok u b hb nav e (parseAnimationData e.dataset)
      simp [processElement, hu, hb, hcmds]
  · intro B es2 j
    show (dispatchFrom B nav 0 es2)[j]? = _
    rw [dispatchFrom_getElem? B nav es2 0 j]
    simp

/-- Witness for C5: in the three-element batch fade-in, bogus-type, empty
type, exactly index 1 fails with Unknown type and indices 0 and 2 resolve
with success true. -/
theorem single_unknown_type_isolated_failure_witness :
    (initAnimations getAnimationConfigs navDesktop
        [fadeElement, badTypeElement, emptyTypeElement]).outcomes.length
      = 3 ∧
    (initAnimations getAnimationConfigs navDesktop
        [fadeElement, badTypeElement, emptyTypeElement]).outcomes[1]? = some
      { result := { success := false, type := "bogus-type", index := 1,
                    skipped := false, error := some "Unknown type" },
        invoked := none, cmds := [] } ∧
    (∃ r, (initAnimations getAnimationConfigs navDesktop
        [fadeElement, badTypeElement, emptyTypeElement]).outcomes[0]?
      = some r ∧ r.result.success = true) ∧
    (∃ r, (initAnimations getAnimationConfigs navDesktop
        [fadeElement, badTypeElement, emptyTypeElement]).outcomes[2]?
      = some r ∧ r.result.success = true) := by
  have h := single_unknown_type_isolated_failure navDesktop
    [fadeElement, badTypeElement, emptyTypeElement] 1 badTypeElement rfl
    "bogus-type" (by decide) rfl
    (by
      intro j e hj he u hu
      rcases j with _ | _ | _ | j
      · have he2 : fadeElement = e := by simpa using he
        subst he2
        have hty : (parseAnimationData fadeElement.dataset).type =
            some "fade-in" := by decide
        rw [hty] at hu
        injection hu with hu2
        subst hu2
        rfl
      · exact absurd rfl hj
      · have he2 : emptyTypeElement = e := by simpa using he
        subst he2
        have hty : (parseAnimationData emptyTypeElement.dataset).type =
            none := by decide
        rw [hty] at hu
        exact Option.noConfusion hu
      · simp at he)
  exact ⟨h.1.trans rfl, h.2.1, h.2.2.1 0 fadeElement (by decide) rfl,
    h.2.2.1 2 emptyTypeElement (by decide) rfl⟩

/-! ### C6 -/

/-- C6: with a navigable nav DOM, starting the footer countdown and letting
it run its full fixed 10 second duration triggers the next-link click
exactly once per activation (further ticks and re-starts are no-ops until a
reset); resetting before completion leaves navigation untriggered, progress
back at 0 and the completion flag clear. -/
theorem footer_countdown_navigates_once (dom : FooterDom) (s : FooterState)
    (hc : s.isAnimationComplete = false)
    (hnav : (navigateToNextPage dom).isSome = true) :
    (tickAnimation dom totalAnimationDuration
        (startHeadingAnimation s)).navClicks = s.navClicks + 1 ∧
    (tickAnimation dom totalAnimationDuration
        (startHeadingAnimation s)).isAnimationComplete = true ∧
    (∀ dt : ℚ, tickAnimation dom dt
        (tickAnimation dom totalAnimationDuration
          (startHeadingAnimation s)) =
      tickAnimation dom totalAnimationDuration (startHeadingAnimation s)) ∧
    startHeadingAnimation (tickAnimation dom totalAnimationDuration
        (startHeadingAnimation s)) =
      tickAnimation dom totalAnimationDuration (startHeadingAnimation s) ∧
    (∀ t : ℚ, 0 ≤ t → t < totalAnimationDuration →
      (tickAnimation dom t (startHeadingAnimation s)).navClicks
          = s.navClicks ∧
      (resetHeadingAnimation (tickAnimation dom t
          (startHeadingAnimation s))).navClicks = s.navClicks ∧
      (resetHeadingAnimation (tickAnimation dom t
          (startHeadingAnimation s))).progress = 0 ∧
      (resetHeadingAnimation (tickAnimation dom t
          (startHeadingAnimation s))).isAnimationComplete = false) := by
  obtain ⟨j, hj⟩ := Option.isSome_iff_exists.mp hnav
  have hstart : startHeadingAnimation s =
      { s with progress := 0, playing := true } := by
    simp [startHeadingAnimation, hc]
  have hone : (1:ℚ) ≤ totalAnimationDuration / totalAnimationDuration := by
    norm_num [totalAnimationDuration]
  have hfull : tickAnimation dom totalAnimationDuration
      (startHeadingAnimation s) =
      { progress := 1, playing := false, isAnimationComplete := true,
        navClicks := s.navClicks + 1 } := by
    rw [hstart]
    unfold tickAnimation
    simp [hone, hj]
  refine ⟨?_, ?_, ?_, ?_, ?_⟩
  · rw [hfull]
  · rw [hfull]
  · intro dt
    rw [hfull]
    unfold tickAnimation
    simp
  · rw [hfull]
    unfold startHeadingAnimation
    simp
  · intro t ht0 ht10
    have hlt : ¬ (1:ℚ) ≤ t / totalAnimationDuration := by
      rw [not_le, div_lt_one (by norm_num [totalAnimationDuration])]
      exact ht10
    have hmid : tickAnimation dom t (startHeadingAnimation s) =
        { s with progress := t / totalAnimationDuration,
                 playing := true } := by
      rw [hstart]
      unfold tickAnimation
      simp [hlt]
    rw [hmid]
    exact ⟨rfl, rfl, rfl, by simp [resetHeadingAnimation]⟩

/-- The nav DOM used by the C6 witness: two links, the first current, the
second with a real href. -/
def footerDom : FooterDom :=
  { navLinks := [{ href := some "/work", isCurrent := true },
                 { href := some "/about", isCurrent := false }],
    wrapFound := true }

/-- Witness for C6: from the freshly set up footer state, a full 10 second
run clicks the next link exactly once, and a reset at 5 seconds leaves
navigation untriggered with progress 0 and the completion flag clear. -/
theorem footer_countdown_navigates_once_witness :
    (tickAnimation footerDom totalAnimationDuration
        (startHeadingAnimation setupHeadingAnimation)).navClicks = 1 ∧
    (tickAnimation footerDom 5
        (startHeadingAnimation setupHeadingAnimation)).navClicks = 0 ∧
    (resetHeadingAnimation (tickAnimation footerDom 5
        (startHeadingAnimation setupHeadingAnimation))).progress = 0 ∧
    (resetHeadingAnimation (tickAnimation footerDom 5
        (startHeadingAnimation setupHeadingAnimation))).isAnimationComplete
      = false := by
  have h := footer_countdown_navigates_once footerDom setupHeadingAnimation
    rfl (by decide)
  have h5 := h.2.2.2.2 5 (by norm_num)
    (by norm_num [totalAnimationDuration])
  exact ⟨h.1.trans rfl, h5.1.trans rfl, h5.2.2.1, h5.2.2.2⟩

end Stefan



